import Mathlib

/-!
# Verification of the Forward Africa authentication and authorization core

Shallow embedding of the token-based authentication subsystem of the
Forward Africa backend:

* `backend/lib/rolePermissions.js` — the static role → permission table and
  its accessors;
* `backend/lib/permissions.js` — `parsePermissions` / `getUserPermissions`;
* `backend/middleware/auth.js` — `rateLimit`, `generateToken`,
  `generateRefreshToken`, `verifyRefreshToken`, `authenticateToken`;
* `backend/routes/secureRoutes.js` — the `/auth/login`, `/auth/refresh`
  and `/auth/logout` handlers.

Conventions of the embedding:

* Wall-clock instants are `Int` milliseconds (`Date.now()`); JWT `iat`/`exp`
  values are `Int` seconds.  `Math.floor(x / 1000)` on a millisecond value is
  Euclidean division `x / 1000`.
* A JWT is modelled as its decoded payload together with a `sigOk` flag
  standing for "the signature verifies under the server secret".  `jwt.sign`
  is deterministic for a fixed secret, so two tokens are equal as strings
  exactly when their payloads coincide; token equality in the model is
  payload equality.
* Database rows are records in a `List`; an SQL `UPDATE ... WHERE id = ?`
  maps over the list.  bcrypt comparison is an abstract parameter
  `cmp : String → String → Bool` (the `comparePassword` collaborator).
* Fallible handlers return `Except ApiError _`; the HTTP error literals of
  the source are embedded as `ApiError` record literals at the exact spot
  the source constructs them.
-/

/-! ## Role permission table (`backend/lib/rolePermissions.js`) -/

/-- `ROLE_PERMISSIONS.user` from `rolePermissions.js`. -/
def userRolePerms : List String :=
  ["courses:view", "courses:take", "profile:edit", "certificates:view",
   "achievements:view", "progress:view"]

/-- `ROLE_PERMISSIONS.content_manager` from `rolePermissions.js`. -/
def contentManagerPerms : List String :=
  ["courses:view", "courses:take", "analytics:view", "content:edit",
   "content:delete", "content:create", "instructors:manage", "media:upload",
   "content:review", "content:publish", "content:workflow", "profile:edit",
   "certificates:view", "achievements:view", "progress:view"]

/-- `ROLE_PERMISSIONS.community_manager` from `rolePermissions.js`. -/
def communityManagerPerms : List String :=
  ["courses:view", "courses:take", "analytics:view", "users:manage",
   "users:view", "users:suspend", "users:activate", "users:ban",
   "users:unban", "community:moderate", "support:handle",
   "support:view_tickets", "support:respond_tickets", "users:view_activity",
   "profile:edit", "certificates:view", "achievements:view", "progress:view"]

/-- `ROLE_PERMISSIONS.user_support` from `rolePermissions.js`. -/
def userSupportPerms : List String :=
  ["courses:view", "courses:take", "analytics:view", "support:handle",
   "support:view_tickets", "support:respond_tickets", "support:close_tickets",
   "community:moderate_basic", "users:view_profile", "users:view_activity",
   "profile:edit", "certificates:view", "achievements:view", "progress:view"]

/-- `ROLE_PERMISSIONS.super_admin` from `rolePermissions.js`. -/
def superAdminPerms : List String :=
  ["courses:view", "courses:take", "analytics:view", "content:edit",
   "content:delete", "content:create", "instructors:manage", "media:upload",
   "content:review", "content:publish", "content:workflow", "users:manage",
   "users:view", "users:suspend", "users:activate", "users:ban",
   "users:unban", "community:moderate", "support:handle",
   "support:view_tickets", "support:respond_tickets", "support:close_tickets",
   "users:view_activity", "audit:view", "audit:export", "system:configure",
   "system:backup", "system:maintenance", "admins:create",
   "super_admins:manage", "security:configure", "database:manage",
   "profile:edit", "certificates:view", "achievements:view", "progress:view"]

/-- `getPermissionsForRole(role)`: table lookup with fallback to the `user`
role's permissions (`ROLE_PERMISSIONS[role] || ROLE_PERMISSIONS.user`). -/
def getPermissionsForRole (role : String) : List String :=
  if role = "user" then userRolePerms
  else if role = "content_manager" then contentManagerPerms
  else if role = "community_manager" then communityManagerPerms
  else if role = "user_support" then userSupportPerms
  else if role = "super_admin" then superAdminPerms
  else userRolePerms

/-! ## Permission parsing (`backend/lib/permissions.js`) -/

/-- The shapes the `permissions` database column can take once the driver has
decoded it, as `parsePermissions` distinguishes them:
* `nullP` — SQL `NULL` / `undefined` (JS falsy branch);
* `arrP ps` — a JS array of permission strings, either native or obtained
  from `JSON.parse` of the stored string;
* `rawP s` — a string for which `JSON.parse` throws (the legacy
  comma-separated / single-literal format).
The source's remaining branch (a non-array JS object from a MySQL JSON
column, handled through `Object.values`) is not among the shapes the
authentication routes store or read and is left out of the embedding. -/
inductive PermStored where
  | nullP : PermStored
  | arrP (ps : List String) : PermStored
  | rawP (s : String) : PermStored
deriving DecidableEq, Repr

open PermStored

/-- `parsePermissions` from `permissions.js`, on the decoded column value.
The array branch maps the legacy literal `all` to `system:full_access`;
the non-JSON string branch handles `all`, comma-separated lists, and a
single permission literal. -/
def parsePermissions : PermStored → List String
  | nullP => []
  | arrP ps => ps.map (fun p => if p = "all" then "system:full_access" else p)
  | rawP s =>
      if s = "all" then ["system:full_access"]
      else if s.contains ',' then (s.splitOn ",").map String.trim
      else [s]

/-- JS truthiness of the stored permissions value: `!storedPermissions` is
true for `null`/`undefined` and for the empty string; arrays are always
truthy. -/
def PermStored.falsy : PermStored → Bool
  | nullP => true
  | arrP _ => false
  | rawP s => s = ""

/-- `Array.from(new Set(list))`: deduplication keeping the first occurrence,
in insertion order. -/
def jsSetDedup (l : List String) : List String :=
  l.foldl (fun acc p => if p ∈ acc then acc else acc ++ [p]) []

/-- `getUserPermissions(role, storedPermissions)` from `permissions.js`:
role base permissions when the stored value is falsy, otherwise the
deduplicated union of role permissions and parsed stored permissions. -/
def getUserPermissions (role : String) (stored : PermStored) : List String :=
  let rolePermissions := getPermissionsForRole role
  if stored.falsy then rolePermissions
  else jsSetDedup (rolePermissions ++ parsePermissions stored)

/-! Membership lemmas for `jsSetDedup`. -/

theorem jsSetDedup_go_mem (l acc : List String) (p : String) :
    p ∈ l.foldl (fun acc p => if p ∈ acc then acc else acc ++ [p]) acc ↔
      p ∈ acc ∨ p ∈ l := by
  induction l generalizing acc with
  | nil => simp
  | cons q l ih =>
      simp only [List.foldl_cons, ih, List.mem_cons]
      by_cases hq : q ∈ acc
      · simp only [hq, if_pos]
        constructor
        · rintro (h | h)
          · exact Or.inl h
          · exact Or.inr (Or.inr h)
        · rintro (h | h | h)
          · exact Or.inl h
          · exact Or.inl (h ▸ hq)
          · exact Or.inr h
      · simp only [hq, if_neg, not_false_iff, List.mem_append,
          List.mem_singleton]
        tauto

theorem jsSetDedup_mem (l : List String) (p : String) :
    p ∈ jsSetDedup l ↔ p ∈ l := by
  unfold jsSetDedup
  rw [jsSetDedup_go_mem]
  simp

theorem jsSetDedup_go_nodup (l : List String) (acc : List String)
    (h : acc.Nodup) :
    (l.foldl (fun acc p => if p ∈ acc then acc else acc ++ [p]) acc).Nodup := by
  induction l generalizing acc with
  | nil => simpa using h
  | cons q l ih =>
      simp only [List.foldl_cons]
      by_cases hq : q ∈ acc
      · simpa [hq] using ih acc h
      · refine ih _ ?_
        simp only [hq, if_neg, not_false_iff]
        exact List.Nodup.append h (List.nodup_singleton q)
          (fun x hx hxq => hq ((List.mem_singleton.mp hxq) ▸ hx))

theorem jsSetDedup_nodup (l : List String) : (jsSetDedup l).Nodup :=
  jsSetDedup_go_nodup l [] List.nodup_nil

/-! ## Data model: users, JWTs, API errors -/

/-- Decoded payload of an access JWT as produced by `generateToken` in
`auth.js`: `jwt.sign(\x7b userId, role, iat \x7d, JWT_SECRET,
\x7b expiresIn: JWT_EXPIRES_IN \x7d)`; `expiresIn` adds an `exp` claim.
A `sigOk` flag models "the signature verifies under `JWT_SECRET`". -/
structure AccessClaims where
  userId : Nat
  role : String
  iat : Int
  exp : Int
  sigOk : Bool
deriving DecidableEq, Repr

/-- Decoded payload of a refresh JWT as produced by `generateRefreshToken`:
`jwt.sign(\x7b userId, type: 'refresh', iat \x7d, ...)`.  `typ` embeds the
`type` claim. -/
structure RefreshClaims where
  userId : Nat
  typ : String
  iat : Int
  exp : Int
  sigOk : Bool
deriving DecidableEq, Repr

/-- A row of the `users` table, restricted to the columns the
authentication routes read and write.  `id = 0` models a falsy id,
`role = ""` a falsy role, matching the handlers' `!user.id || !user.role`
validation.  The stored `refresh_token` column holds the decoded form of
the token string (JWT signing is deterministic, so string equality of
tokens is payload equality). -/
structure User where
  id : Nat
  email : String
  full_name : String
  password : String
  role : String
  permissions : PermStored
  is_active : Bool
  failed_login_attempts : Nat
  last_failed_login : Int
  last_login : Int
  refresh_token : Option RefreshClaims
deriving DecidableEq, Repr

/-- A JSON error response of the routes: HTTP status, `error` message,
`code`, and the optional `retryAfter` field. -/
structure ApiError where
  status : Nat
  error : String
  code : String
  retryAfter : Option Int
deriving DecidableEq, Repr

/-- The `user` object the login response returns (password omitted),
as built in `secureRoutes.js`. -/
structure UserData where
  id : Nat
  email : String
  full_name : String
  role : String
  permissions : List String
deriving DecidableEq, Repr

/-- Body of a successful login / refresh response: the access token, the
refresh token and (for login) the user data. -/
structure LoginSuccess where
  token : AccessClaims
  refreshToken : RefreshClaims
  user : UserData
deriving DecidableEq, Repr

/-- Outcome of one run of the login handler: the HTTP result, the database
after the handler's `UPDATE`s, and the number of bcrypt comparisons
(`comparePassword` calls) the run performed. -/
structure LoginRun where
  result : Except ApiError LoginSuccess
  db : List User
  hashComparisons : Nat

/-! ## Database helpers (the `pool.execute` statements) -/

/-- `SELECT ... FROM users WHERE email = ?`, first row. -/
def findByEmail (db : List User) (email : String) : Option User :=
  db.find? (fun u => u.email = email)

/-- `SELECT ... FROM users WHERE id = ?`, first row. -/
def userById (db : List User) (uid : Nat) : Option User :=
  db.find? (fun u => u.id = uid)

/-- `UPDATE users SET failed_login_attempts = ? WHERE id = ?`. -/
def setFailedAttempts (db : List User) (uid : Nat) (n : Nat) : List User :=
  db.map (fun u => if u.id = uid then { u with failed_login_attempts := n } else u)

/-- `UPDATE users SET failed_login_attempts = failed_login_attempts + 1,
last_failed_login = NOW() WHERE id = ?`. -/
def recordFailedLogin (db : List User) (uid : Nat) (now : Int) : List User :=
  db.map (fun u =>
    if u.id = uid then
      { u with failed_login_attempts := u.failed_login_attempts + 1,
               last_failed_login := now }
    else u)

/-- `UPDATE users SET failed_login_attempts = 0, last_login = NOW()
WHERE id = ?`. -/
def recordSuccessfulLogin (db : List User) (uid : Nat) (now : Int) : List User :=
  db.map (fun u =>
    if u.id = uid then
      { u with failed_login_attempts := 0, last_login := now }
    else u)

/-- `UPDATE users SET refresh_token = ? WHERE id = ?` (also used with `NULL`
by the logout handler). -/
def setRefreshToken (db : List User) (uid : Nat) (tok : Option RefreshClaims) :
    List User :=
  db.map (fun u => if u.id = uid then { u with refresh_token := tok } else u)

/-! ## Token generation (`auth.js`) -/

/-- Lockout window: `15 * 60 * 1000` ms in the login handler. -/
def lockoutTimeMs : Int := 15 * 60 * 1000

/-- `JWT_EXPIRES_IN = '24h'` in seconds. -/
def accessTokenLifetimeSec : Int := 24 * 60 * 60

/-- `REFRESH_TOKEN_EXPIRES_IN = '7d'` in seconds. -/
def refreshTokenLifetimeSec : Int := 7 * 24 * 60 * 60

/-- `generateToken(userId, role)`: throws (here `none`) when
`validateUserId` fails (`id = 0`) or the role is falsy; otherwise signs
`userId`, `role`, `iat = floor(Date.now() / 1000)` with a 24h `exp`. -/
def generateToken (userId : Nat) (role : String) (now : Int) :
    Option AccessClaims :=
  if userId = 0 ∨ role = "" then none
  else some ⟨userId, role, now / 1000, now / 1000 + accessTokenLifetimeSec, true⟩

/-- `generateRefreshToken(userId)`: throws when `validateUserId` fails;
otherwise signs `userId`, `type: 'refresh'`, `iat` with a 7d `exp`. -/
def generateRefreshToken (userId : Nat) (now : Int) : Option RefreshClaims :=
  if userId = 0 then none
  else some ⟨userId, "refresh", now / 1000, now / 1000 + refreshTokenLifetimeSec, true⟩

/-! ## The login handler (`POST /auth/login`, `secureRoutes.js`) -/

/-- One run of the login route body.  `cmp` is the bcrypt collaborator
(`comparePassword(presented, storedHash)`).  The branches follow the
source top to bottom: missing credentials, user lookup, user-data
validation, `is_active`, the failed-attempt lockout gate (with the reset
of the counter once the lockout window has elapsed), password
verification, and finally token issuance with storage of the new refresh
token. -/
def login (cmp : String → String → Bool) (db : List User) (now : Int)
    (email? password? : Option String) : LoginRun :=
  match email?, password? with
  | some email, some password =>
      if email = "" ∨ password = "" then
        ⟨.error ⟨400, "Email and password are required", "MISSING_CREDENTIALS", none⟩,
          db, 0⟩
      else
        match findByEmail db email with
        | none =>
            ⟨.error ⟨401, "Invalid credentials", "INVALID_CREDENTIALS", none⟩, db, 0⟩
        | some user =>
            if user.id = 0 ∨ user.role = "" then
              ⟨.error ⟨500, "Invalid user data", "INTERNAL_ERROR", none⟩, db, 0⟩
            else if user.is_active = false then
              ⟨.error ⟨403, "Account is suspended", "ACCOUNT_SUSPENDED", none⟩, db, 0⟩
            else
              let timeSince := now - user.last_failed_login
              if user.failed_login_attempts ≥ 5 ∧ timeSince < lockoutTimeMs then
                ⟨.error ⟨429, "Account temporarily locked due to too many failed attempts",
                    "ACCOUNT_LOCKED", some ((lockoutTimeMs - timeSince + 999) / 1000)⟩,
                  db, 0⟩
              else
                let db1 := if user.failed_login_attempts ≥ 5 then
                    setFailedAttempts db user.id 0 else db
                if cmp password user.password then
                  let db2 := recordSuccessfulLogin db1 user.id now
                  match generateToken user.id user.role now,
                        generateRefreshToken user.id now with
                  | some access, some refreshTok =>
                      let db3 := setRefreshToken db2 user.id (some refreshTok)
                      ⟨.ok ⟨access, refreshTok,
                          ⟨user.id, user.email, user.full_name, user.role,
                            parsePermissions user.permissions⟩⟩, db3, 1⟩
                  | _, _ =>
                      ⟨.error ⟨500, "Token generation failed",
                          "TOKEN_GENERATION_ERROR", none⟩, db2, 1⟩
                else
                  let db2 := recordFailedLogin db1 user.id now
                  ⟨.error ⟨401, "Invalid credentials", "INVALID_CREDENTIALS", none⟩,
                    db2, 1⟩
  | _, _ =>
      ⟨.error ⟨400, "Email and password are required", "MISSING_CREDENTIALS", none⟩,
        db, 0⟩

/-! ## Refresh-token verification and the refresh route -/

/-- `verifyRefreshToken(refreshToken)` from `auth.js` combined with the
`jwt.verify` it calls: the token must carry a valid signature, be
unexpired (`jwt.verify` raises `TokenExpiredError` once the clock in
seconds reaches `exp`), carry `type: 'refresh'`, and a valid positive
`userId`.  Every failure is a throw; the route's `catch` turns each into
the same 401 response, so the model collapses them to `none`. -/
def verifyRefreshToken (tok : RefreshClaims) (nowMs : Int) :
    Option RefreshClaims :=
  if tok.sigOk = false then none
  else if tok.exp ≤ nowMs / 1000 then none
  else if tok.typ ≠ "refresh" then none
  else if tok.userId = 0 then none
  else some tok

/-- Outcome of one run of a refresh or logout-adjacent route: HTTP result
plus the database afterwards. -/
structure RefreshSuccess where
  token : AccessClaims
  refreshToken : RefreshClaims
deriving DecidableEq, Repr

structure RefreshRun where
  result : Except ApiError RefreshSuccess
  db : List User

/-- The `POST /auth/refresh` handler from `secureRoutes.js`: missing-token
check, `verifyRefreshToken`, the handler's own `!decoded.userId` check,
the `WHERE id = ? AND refresh_token = ?` lookup against the stored
pointer, user-data validation, then rotation — new access and refresh
tokens are issued and the stored pointer is replaced by the new refresh
token.  A `generateToken` throw would land in the route's `catch`, which
returns the same 401 `INVALID_REFRESH_TOKEN` literal. -/
def refreshRoute (db : List User) (nowMs : Int) (tok? : Option RefreshClaims) :
    RefreshRun :=
  match tok? with
  | none =>
      ⟨.error ⟨400, "Refresh token is required", "MISSING_REFRESH_TOKEN", none⟩, db⟩
  | some tok =>
      match verifyRefreshToken tok nowMs with
      | none =>
          ⟨.error ⟨401, "Invalid refresh token", "INVALID_REFRESH_TOKEN", none⟩, db⟩
      | some decoded =>
          if decoded.userId = 0 then
            ⟨.error ⟨401, "Invalid refresh token", "INVALID_REFRESH_TOKEN", none⟩, db⟩
          else
            match db.find? (fun u => u.id = decoded.userId ∧ u.refresh_token = some tok) with
            | none =>
                ⟨.error ⟨401, "Invalid refresh token", "INVALID_REFRESH_TOKEN", none⟩, db⟩
            | some user =>
                if user.id = 0 ∨ user.role = "" then
                  ⟨.error ⟨500, "Invalid user data", "INTERNAL_ERROR", none⟩, db⟩
                else
                  match generateToken user.id user.role nowMs,
                        generateRefreshToken user.id nowMs with
                  | some access, some newRefresh =>
                      ⟨.ok ⟨access, newRefresh⟩,
                        setRefreshToken db user.id (some newRefresh)⟩
                  | _, _ =>
                      ⟨.error ⟨401, "Invalid refresh token", "INVALID_REFRESH_TOKEN", none⟩, db⟩

/-- The database effect of `POST /auth/logout`:
`UPDATE users SET refresh_token = NULL WHERE id = ?` for the
authenticated user's id. -/
def logoutRoute (db : List User) (uid : Nat) : List User :=
  setRefreshToken db uid none

/-! ## Access-token verification middleware (`authenticateToken`) -/

/-- The `req.user` object `authenticateToken` attaches on success. -/
structure AuthedUser where
  id : Nat
  email : String
  full_name : String
  role : String
  permissions : List String
  last_login : Int
deriving DecidableEq, Repr

/-- `authenticateToken` from `auth.js`: missing-token check, `jwt.verify`
(signature and expiry), the middleware's own millisecond expiry re-check
(`decoded.exp && Date.now() >= decoded.exp * 1000`), `validateUserId`,
then the `WHERE id = ? AND is_active = 1` lookup; on success the request
carries the user's data with freshly parsed permissions.  Note the
stored refresh-token pointer is never consulted. -/
def authenticateToken (db : List User) (nowMs : Int)
    (tok? : Option AccessClaims) : Except ApiError AuthedUser :=
  match tok? with
  | none => .error ⟨401, "Access token required", "TOKEN_MISSING", none⟩
  | some tok =>
      if tok.sigOk = false then
        .error ⟨401, "Invalid token", "TOKEN_INVALID", none⟩
      else if tok.exp ≤ nowMs / 1000 then
        .error ⟨401, "Token expired", "TOKEN_EXPIRED", none⟩
      else if tok.exp ≠ 0 ∧ nowMs ≥ tok.exp * 1000 then
        .error ⟨401, "Token expired", "TOKEN_EXPIRED", none⟩
      else if tok.userId = 0 then
        .error ⟨401, "Invalid token payload", "TOKEN_INVALID", none⟩
      else
        match db.find? (fun u => u.id = tok.userId ∧ u.is_active) with
        | none => .error ⟨401, "User account not found or inactive", "USER_NOT_FOUND", none⟩
        | some user =>
            if user.is_active = false then
              .error ⟨403, "Account is suspended", "ACCOUNT_SUSPENDED", none⟩
            else
              .ok ⟨user.id, user.email, user.full_name, user.role,
                parsePermissions user.permissions, user.last_login⟩

/-! ## Rate limiting middleware (`rateLimit` in `auth.js`) -/

/-- An entry of the module-level `rateLimitStore` map. -/
structure RateRecord where
  count : Nat
  resetTime : Int
deriving DecidableEq, Repr

/-- `next()` versus the 429 response with its `retryAfter`. -/
inductive RateOutcome where
  | next : RateOutcome
  | limited (retryAfter : Int) : RateOutcome
deriving DecidableEq, Repr

/-- `rateLimitStore.get(key)`. -/
def storeGet (s : List (String × RateRecord)) (k : String) : Option RateRecord :=
  (s.find? (fun e => e.1 = k)).map (fun e => e.2)

/-- `rateLimitStore.set(key, record)` / in-place mutation of the record:
replace the entry when present, append otherwise. -/
def storeSet (s : List (String × RateRecord)) (k : String) (r : RateRecord) :
    List (String × RateRecord) :=
  if (s.find? (fun e => e.1 = k)).isSome then
    s.map (fun e => if e.1 = k then (k, r) else e)
  else
    s ++ [(k, r)]

/-- The `rateLimit(maxRequests, windowMs)` middleware body from `auth.js`.
The key is `req.ip` alone; the store is the single module-level
`rateLimitStore` shared by every instance of the middleware.  A fresh key
gets a window of one request; an expired window resets to one request;
otherwise the count increments, and exceeding `maxRequests` yields the
429 with `retryAfter = ceil((resetTime - now) / 1000)`. -/
def rateLimit (maxRequests : Nat) (windowMs : Int)
    (store : List (String × RateRecord)) (ip : String) (now : Int) :
    RateOutcome × List (String × RateRecord) :=
  match storeGet store ip with
  | none => (.next, storeSet store ip ⟨1, now + windowMs⟩)
  | some record =>
      let record' : RateRecord :=
        if now > record.resetTime then ⟨1, now + windowMs⟩
        else ⟨record.count + 1, record.resetTime⟩
      if record'.count > maxRequests then
        (.limited ((record'.resetTime - now + 999) / 1000), storeSet store ip record')
      else
        (.next, storeSet store ip record')

/-- Comparison collaborator used by concrete runs: a hash "matches" the
presented secret exactly when the strings coincide (standing in for
bcrypt on concrete inputs). -/
def literalCmp (p h : String) : Bool := p == h

/-! ## Evaluation lemmas for the login handler, one per route branch -/

theorem generateToken_eq (userId : Nat) (role : String) (now : Int)
    (hid : userId ≠ 0) (hrole : role ≠ "") :
    generateToken userId role now =
      some ⟨userId, role, now / 1000, now / 1000 + accessTokenLifetimeSec, true⟩ := by
  unfold generateToken
  rw [if_neg]
  simp [hid, hrole]

theorem generateRefreshToken_eq (userId : Nat) (now : Int) (hid : userId ≠ 0) :
    generateRefreshToken userId now =
      some ⟨userId, "refresh", now / 1000, now / 1000 + refreshTokenLifetimeSec, true⟩ := by
  unfold generateRefreshToken
  rw [if_neg hid]

theorem login_eval_unknown (cmp : String → String → Bool) (db : List User)
    (now : Int) (email password : String)
    (hcred : ¬(email = "" ∨ password = ""))
    (hfind : findByEmail db email = none) :
    login cmp db now (some email) (some password) =
      ⟨.error ⟨401, "Invalid credentials", "INVALID_CREDENTIALS", none⟩, db, 0⟩ := by
  unfold login
  dsimp only
  rw [if_neg hcred, hfind]

theorem login_eval_suspended (cmp : String → String → Bool) (db : List User)
    (now : Int) (email password : String) (user : User)
    (hcred : ¬(email = "" ∨ password = ""))
    (hfind : findByEmail db email = some user)
    (hvalid : ¬(user.id = 0 ∨ user.role = ""))
    (hinactive : user.is_active = false) :
    login cmp db now (some email) (some password) =
      ⟨.error ⟨403, "Account is suspended", "ACCOUNT_SUSPENDED", none⟩, db, 0⟩ := by
  unfold login
  dsimp only
  rw [if_neg hcred, hfind]
  dsimp only
  rw [if_neg hvalid, if_pos hinactive]

theorem login_eval_locked (cmp : String → String → Bool) (db : List User)
    (now : Int) (email password : String) (user : User)
    (hcred : ¬(email = "" ∨ password = ""))
    (hfind : findByEmail db email = some user)
    (hvalid : ¬(user.id = 0 ∨ user.role = ""))
    (hactive : user.is_active = true)
    (hlock : user.failed_login_attempts ≥ 5 ∧
      now - user.last_failed_login < lockoutTimeMs) :
    login cmp db now (some email) (some password) =
      ⟨.error ⟨429, "Account temporarily locked due to too many failed attempts",
          "ACCOUNT_LOCKED",
          some ((lockoutTimeMs - (now - user.last_failed_login) + 999) / 1000)⟩,
        db, 0⟩ := by
  unfold login
  dsimp only
  rw [if_neg hcred, hfind]
  dsimp only
  rw [if_neg hvalid, if_neg (by simp [hactive]), if_pos hlock]

theorem login_eval_wrong_password (cmp : String → String → Bool)
    (db : List User) (now : Int) (email password : String) (user : User)
    (hcred : ¬(email = "" ∨ password = ""))
    (hfind : findByEmail db email = some user)
    (hvalid : ¬(user.id = 0 ∨ user.role = ""))
    (hactive : user.is_active = true)
    (hnolock : ¬(user.failed_login_attempts ≥ 5 ∧
      now - user.last_failed_login < lockoutTimeMs))
    (hwrong : cmp password user.password = false) :
    login cmp db now (some email) (some password) =
      ⟨.error ⟨401, "Invalid credentials", "INVALID_CREDENTIALS", none⟩,
        recordFailedLogin
          (if user.failed_login_attempts ≥ 5 then setFailedAttempts db user.id 0 else db)
          user.id now, 1⟩ := by
  unfold login
  dsimp only
  rw [if_neg hcred, hfind]
  dsimp only
  rw [if_neg hvalid, if_neg (by simp [hactive]), if_neg hnolock, hwrong]
  simp

theorem login_eval_success (cmp : String → String → Bool)
    (db : List User) (now : Int) (email password : String) (user : User)
    (hcred : ¬(email = "" ∨ password = ""))
    (hfind : findByEmail db email = some user)
    (hid : user.id ≠ 0) (hrole : user.role ≠ "")
    (hactive : user.is_active = true)
    (hnolock : ¬(user.failed_login_attempts ≥ 5 ∧
      now - user.last_failed_login < lockoutTimeMs))
    (hright : cmp password user.password = true) :
    login cmp db now (some email) (some password) =
      ⟨.ok ⟨⟨user.id, user.role, now / 1000, now / 1000 + accessTokenLifetimeSec, true⟩,
          ⟨user.id, "refresh", now / 1000, now / 1000 + refreshTokenLifetimeSec, true⟩,
          ⟨user.id, user.email, user.full_name, user.role,
            parsePermissions user.permissions⟩⟩,
        setRefreshToken
          (recordSuccessfulLogin
            (if user.failed_login_attempts ≥ 5 then setFailedAttempts db user.id 0 else db)
            user.id now)
          user.id
          (some ⟨user.id, "refresh", now / 1000, now / 1000 + refreshTokenLifetimeSec, true⟩),
        1⟩ := by
  unfold login
  dsimp only
  rw [if_neg hcred, hfind]
  dsimp only
  rw [if_neg (by simp [hid, hrole]), if_neg (by simp [hactive]), if_neg hnolock,
    hright, generateToken_eq user.id user.role now hid hrole,
    generateRefreshToken_eq user.id now hid]
  simp

/-! ## Lookup lemmas for the per-id `UPDATE` operations -/

theorem userById_id (db : List User) (uid : Nat) (u : User)
    (h : userById db uid = some u) : u.id = uid := by
  have := List.find?_some h
  exact of_decide_eq_true this

/-- A per-id update (`UPDATE ... WHERE id = ?`) rewrites exactly the row the
id lookup returns, provided the update preserves ids. -/
theorem userById_after_upd (db : List User) (uid : Nat) (f : User -> User)
    (hf : forall u, (f u).id = u.id) (u : User) (h : userById db uid = some u) :
    userById (db.map (fun v => if v.id = uid then f v else v)) uid =
      some (f u) := by
  induction db with
  | nil => simp [userById] at h
  | cons v l ih =>
      by_cases hv : v.id = uid
      · rw [userById, List.find?_cons_of_pos _ (by simp [hv])] at h
        have hvu : v = u := by simpa using h
        subst hvu
        rw [userById, List.map_cons, if_pos hv,
          List.find?_cons_of_pos _ (by simp [hf, hv])]
      · rw [userById, List.find?_cons_of_neg _ (by simp [hv])] at h
        rw [userById, List.map_cons, if_neg hv,
          List.find?_cons_of_neg _ (by simp [hv])]
        exact ih h

theorem userById_after_setRefreshToken (db : List User) (uid : Nat)
    (tok : Option RefreshClaims) (u : User) (h : userById db uid = some u) :
    userById (setRefreshToken db uid tok) uid =
      some { u with refresh_token := tok } :=
  userById_after_upd db uid (fun v => { v with refresh_token := tok })
    (fun _ => rfl) u h

theorem userById_after_setFailedAttempts (db : List User) (uid : Nat) (n : Nat)
    (u : User) (h : userById db uid = some u) :
    userById (setFailedAttempts db uid n) uid =
      some { u with failed_login_attempts := n } :=
  userById_after_upd db uid (fun v => { v with failed_login_attempts := n })
    (fun _ => rfl) u h

theorem userById_after_recordFailedLogin (db : List User) (uid : Nat) (now : Int)
    (u : User) (h : userById db uid = some u) :
    userById (recordFailedLogin db uid now) uid =
      some { u with failed_login_attempts := u.failed_login_attempts + 1,
                    last_failed_login := now } :=
  userById_after_upd db uid
    (fun v => { v with failed_login_attempts := v.failed_login_attempts + 1,
                       last_failed_login := now })
    (fun _ => rfl) u h

theorem userById_after_recordSuccessfulLogin (db : List User) (uid : Nat)
    (now : Int) (u : User) (h : userById db uid = some u) :
    userById (recordSuccessfulLogin db uid now) uid =
      some { u with failed_login_attempts := 0, last_login := now } :=
  userById_after_upd db uid
    (fun v => { v with failed_login_attempts := 0, last_login := now })
    (fun _ => rfl) u h

/-- After the stored pointer of every row of account `uid` has been set to
`stored`, the refresh route's `WHERE id = ? AND refresh_token = ?` lookup
for a token other than `stored` finds nothing. -/
theorem refreshLookup_after_set (db : List User) (uid : Nat)
    (stored : Option RefreshClaims) (tok : RefreshClaims)
    (hne : stored ≠ some tok) :
    (setRefreshToken db uid stored).find?
      (fun u => u.id = uid ∧ u.refresh_token = some tok) = none := by
  rw [setRefreshToken, List.find?_eq_none]
  intro x hx
  rw [List.mem_map] at hx
  obtain ⟨u, _, rfl⟩ := hx
  by_cases h : u.id = uid <;> simp [h, hne]

/-! ## Claim C9: permission resolution -/

/-- C9: the resolved permission set is `permissionsForRole(role) ∪ overrides`,
deduplicated: membership in `getUserPermissions role (arrP ps)` is exactly
membership in the role's base permissions or in the normalized overrides,
the result has no duplicates; the `user` role with override
`["courses:admin"]` resolves to `permissionsForRole(user) ∪ \x7b"courses:admin"\x7d`;
and the legacy literal `"all"` (array element or raw string) normalizes to
the single sentinel `system:full_access`, not an expansion into every
known permission. -/
theorem C9_permission_resolution :
    (∀ (role : String) (ps : List String) (p : String),
      p ∈ getUserPermissions role (arrP ps) ↔
        p ∈ getPermissionsForRole role ∨
          p ∈ ps.map (fun q => if q = "all" then "system:full_access" else q)) ∧
    (∀ (role : String) (ps : List String),
      (getUserPermissions role (arrP ps)).Nodup) ∧
    getUserPermissions "user" (arrP ["courses:admin"]) =
      getPermissionsForRole "user" ++ ["courses:admin"] ∧
    parsePermissions (arrP ["all"]) = ["system:full_access"] ∧
    parsePermissions (rawP "all") = ["system:full_access"] := by
  refine ⟨?_, ?_, by decide, rfl, rfl⟩
  · intro role ps p
    simp [getUserPermissions, PermStored.falsy, jsSetDedup_mem, parsePermissions]
  · intro role ps
    simp only [getUserPermissions, PermStored.falsy]
    rw [if_neg (by simp)]
    exact jsSetDedup_nodup _

/-! ## Claim C2: lockout gate precedes the credential check -/

/-- C2: when an account has five or more recorded failed attempts and the
last failure is within the 15-minute lockout window, the login attempt is
rejected with the 429 `ACCOUNT_LOCKED` response carrying a positive
`retryAfter`, for every credential comparator (in particular one that
would accept the presented secret), with no hash comparison performed and
the database left unchanged: the lockout gate runs before the password
check. -/
theorem C2_lockout_precedes_credentials
    (cmp : String → String → Bool) (db : List User) (now : Int)
    (email password : String) (user : User)
    (hcred : ¬(email = "" ∨ password = ""))
    (hfind : findByEmail db email = some user)
    (hvalid : ¬(user.id = 0 ∨ user.role = ""))
    (hactive : user.is_active = true)
    (hcount : user.failed_login_attempts ≥ 5)
    (hrecent : now - user.last_failed_login < lockoutTimeMs) :
    0 < (lockoutTimeMs - (now - user.last_failed_login) + 999) / 1000 ∧
    login cmp db now (some email) (some password) =
      ⟨.error ⟨429, "Account temporarily locked due to too many failed attempts",
          "ACCOUNT_LOCKED",
          some ((lockoutTimeMs - (now - user.last_failed_login) + 999) / 1000)⟩,
        db, 0⟩ := by
  constructor
  · simp only [lockoutTimeMs] at *
    omega
  · exact login_eval_locked cmp db now email password user hcred hfind hvalid
      hactive ⟨hcount, hrecent⟩

def c2User : User :=
  ⟨1, "l@x.com", "L", "secret", "user", PermStored.nullP, true, 5, 0, 0, none⟩

theorem C2_lockout_precedes_credentials_witness :
    0 < (lockoutTimeMs - ((1000 : Int) - c2User.last_failed_login) + 999) / 1000 ∧
    login literalCmp [c2User] 1000 (some "l@x.com") (some "secret") =
      ⟨.error ⟨429, "Account temporarily locked due to too many failed attempts",
          "ACCOUNT_LOCKED",
          some ((lockoutTimeMs - ((1000 : Int) - c2User.last_failed_login) + 999) / 1000)⟩,
        [c2User], 0⟩ :=
  C2_lockout_precedes_credentials literalCmp [c2User] 1000 "l@x.com" "secret"
    c2User (by decide) rfl (by decide) rfl (by decide) (by decide)

/-! ## Claim C10: inactive accounts are rejected before all later gates -/

/-- C10: a login naming an existing account whose `is_active` flag is false
returns the 403 `ACCOUNT_SUSPENDED` error for every credential comparator,
every failed-attempt count and every lockout state, leaving the database
(hence the failed-attempt counter and the stored refresh-token pointer)
unchanged and performing no hash comparison: the inactive check precedes
the lockout and credential gates. -/
theorem C10_inactive_account_rejected
    (cmp : String → String → Bool) (db : List User) (now : Int)
    (email password : String) (user : User)
    (hcred : ¬(email = "" ∨ password = ""))
    (hfind : findByEmail db email = some user)
    (hvalid : ¬(user.id = 0 ∨ user.role = ""))
    (hinactive : user.is_active = false) :
    login cmp db now (some email) (some password) =
      ⟨.error ⟨403, "Account is suspended", "ACCOUNT_SUSPENDED", none⟩, db, 0⟩ :=
  login_eval_suspended cmp db now email password user hcred hfind hvalid hinactive

def c10User : User :=
  ⟨3, "s@x.com", "S", "pw10", "user", PermStored.nullP, false, 7, 0, 0, none⟩

theorem C10_inactive_account_rejected_witness :
    login literalCmp [c10User] 0 (some "s@x.com") (some "pw10") =
      ⟨.error ⟨403, "Account is suspended", "ACCOUNT_SUSPENDED", none⟩,
        [c10User], 0⟩ :=
  C10_inactive_account_rejected literalCmp [c10User] 0 "s@x.com" "pw10" c10User
    (by decide) rfl (by decide) rfl

/-! ## Claim C7: uniform `INVALID_CREDENTIALS` -/

/-- C7: the response for an unknown identifier and the response for a known
account with a wrong secret are the same value — same status 401, same
message `Invalid credentials`, same code `INVALID_CREDENTIALS`. -/
theorem C7_invalid_credentials_uniform
    (cmp cmp2 : String → String → Bool) (db db2 : List User) (now now2 : Int)
    (email password email2 password2 : String) (user : User)
    (hcred : ¬(email = "" ∨ password = ""))
    (hcred2 : ¬(email2 = "" ∨ password2 = ""))
    (hunknown : findByEmail db email = none)
    (hfind : findByEmail db2 email2 = some user)
    (hvalid : ¬(user.id = 0 ∨ user.role = ""))
    (hactive : user.is_active = true)
    (hnolock : ¬(user.failed_login_attempts ≥ 5 ∧
      now2 - user.last_failed_login < lockoutTimeMs))
    (hwrong : cmp2 password2 user.password = false) :
    (login cmp db now (some email) (some password)).result =
      (login cmp2 db2 now2 (some email2) (some password2)).result ∧
    (login cmp db now (some email) (some password)).result =
      .error ⟨401, "Invalid credentials", "INVALID_CREDENTIALS", none⟩ := by
  rw [login_eval_unknown cmp db now email password hcred hunknown,
    login_eval_wrong_password cmp2 db2 now2 email2 password2 user hcred2 hfind
      hvalid hactive hnolock hwrong]
  exact ⟨rfl, rfl⟩

def c7User : User :=
  ⟨4, "k@x.com", "K", "rightpw", "user", PermStored.nullP, true, 0, 0, 0, none⟩

theorem C7_invalid_credentials_uniform_witness :
    (login literalCmp [c7User] 0 (some "unknown@x.com") (some "pw")).result =
      (login literalCmp [c7User] 0 (some "k@x.com") (some "wrongpw")).result ∧
    (login literalCmp [c7User] 0 (some "unknown@x.com") (some "pw")).result =
      .error ⟨401, "Invalid credentials", "INVALID_CREDENTIALS", none⟩ :=
  C7_invalid_credentials_uniform literalCmp literalCmp [c7User] [c7User] 0 0
    "unknown@x.com" "pw" "k@x.com" "wrongpw" c7User (by decide) (by decide)
    rfl rfl (by decide) rfl (by decide) (by decide)

/-! ## Claim C8: no dummy hash comparison for unknown identifiers -/

def c8Other : User :=
  ⟨2, "other@x.com", "O", "hash2", "user", PermStored.nullP, true, 0, 0, 0, none⟩

/-- C8 counterexample: the unknown-identifier branch of the login route
returns `INVALID_CREDENTIALS` after zero `comparePassword` invocations,
while a wrong-secret attempt on an existing account performs one — the
dummy-hash timing equalization the claim describes does not happen. -/
theorem C8_dummy_hash_counterexample :
    findByEmail [c8Other] "missing@x.com" = none ∧
    (login literalCmp [c8Other] 0 (some "missing@x.com") (some "pw")).hashComparisons = 0 ∧
    (login literalCmp [c8Other] 0 (some "missing@x.com") (some "pw")).result =
      .error ⟨401, "Invalid credentials", "INVALID_CREDENTIALS", none⟩ ∧
    (login literalCmp [c8Other] 0 (some "other@x.com") (some "wrong")).hashComparisons = 1 :=
  ⟨rfl, rfl, rfl, rfl⟩

/-- C8 amended: when the identifier matches no stored account the login
route returns `INVALID_CREDENTIALS` immediately, performing zero
credential-hash comparisons (no dummy-hash comparison is made), for every
comparator and database. -/
theorem C8_unknown_identifier_no_comparison
    (cmp : String → String → Bool) (db : List User) (now : Int)
    (email password : String)
    (hcred : ¬(email = "" ∨ password = ""))
    (hunknown : findByEmail db email = none) :
    login cmp db now (some email) (some password) =
      ⟨.error ⟨401, "Invalid credentials", "INVALID_CREDENTIALS", none⟩, db, 0⟩ :=
  login_eval_unknown cmp db now email password hcred hunknown

theorem C8_unknown_identifier_no_comparison_witness :
    login literalCmp [c8Other] 0 (some "missing@x.com") (some "pw") =
      ⟨.error ⟨401, "Invalid credentials", "INVALID_CREDENTIALS", none⟩,
        [c8Other], 0⟩ :=
  C8_unknown_identifier_no_comparison literalCmp [c8Other] 0 "missing@x.com"
    "pw" (by decide) rfl

/-! ## Claim C5: the failed-attempt counter transition -/

def c5User : User :=
  ⟨1, "c5@x.com", "C", "hash5", "user", PermStored.nullP, true, 3, 0, 0, none⟩

/-- C5 counterexample: for an account with 3 recorded failures whose last
failure lies a full lockout duration in the past (`now − lastFailureTime ≥
lockoutDuration`), a wrong-secret attempt does not reset the counter to
zero as the claim requires — it increments it to 4, because the code's
elapsed-window reset only runs inside the `failed_login_attempts >= 5`
branch. -/
theorem C5_counter_reset_counterexample :
    lockoutTimeMs ≤ lockoutTimeMs - c5User.last_failed_login ∧
    (login literalCmp [c5User] lockoutTimeMs (some "c5@x.com") (some "wrong")).result =
      .error ⟨401, "Invalid credentials", "INVALID_CREDENTIALS", none⟩ ∧
    (userById (login literalCmp [c5User] lockoutTimeMs
        (some "c5@x.com") (some "wrong")).db 1).map User.failed_login_attempts =
      some 4 :=
  ⟨by decide, rfl, rfl⟩

/-- C5 amended: for a login attempt that reaches the lockout/credential
gates (credentials present, account found, valid and active), the
failed-attempt counter after the attempt is: unchanged when the lockout
gate rejects (five or more failures within the window); zero when the
password check succeeds; one when the secret is wrong and the counter was
at five or more with the window elapsed (the elapsed-window reset to zero
runs only in the `>= 5` branch, and the wrong-secret increment then lands
on the reset value); and incremented by one for a wrong secret otherwise. -/
theorem C5_failed_counter_transition
    (cmp : String → String → Bool) (db : List User) (now : Int)
    (email password : String) (user : User)
    (hcred : ¬(email = "" ∨ password = ""))
    (hfind : findByEmail db email = some user)
    (huid : userById db user.id = some user)
    (hid : user.id ≠ 0) (hrole : user.role ≠ "")
    (hactive : user.is_active = true) :
    (userById (login cmp db now (some email) (some password)).db user.id).map
        User.failed_login_attempts =
      some (if user.failed_login_attempts ≥ 5 ∧
              now - user.last_failed_login < lockoutTimeMs then
              user.failed_login_attempts
            else if cmp password user.password then 0
            else if user.failed_login_attempts ≥ 5 then 1
            else user.failed_login_attempts + 1) := by
  have hvalid : ¬(user.id = 0 ∨ user.role = "") := by simp [hid, hrole]
  by_cases hlock : user.failed_login_attempts ≥ 5 ∧
      now - user.last_failed_login < lockoutTimeMs
  · rw [login_eval_locked cmp db now email password user hcred hfind hvalid
      hactive hlock]
    simp [hlock, huid]
  · have hdb1 : userById (if user.failed_login_attempts ≥ 5 then
        setFailedAttempts db user.id 0 else db) user.id =
        some (if user.failed_login_attempts ≥ 5 then
          { user with failed_login_attempts := 0 } else user) := by
      by_cases h5 : user.failed_login_attempts ≥ 5
      · simpa [h5] using userById_after_setFailedAttempts db user.id 0 user huid
      · simpa [h5] using huid
    by_cases hpw : cmp password user.password = true
    · rw [login_eval_success cmp db now email password user hcred hfind hid
        hrole hactive hlock hpw]
      have h2 := userById_after_recordSuccessfulLogin _ user.id now _ hdb1
      have h3 := userById_after_setRefreshToken _ user.id
        (some ⟨user.id, "refresh", now / 1000,
          now / 1000 + refreshTokenLifetimeSec, true⟩) _ h2
      rw [h3]
      by_cases h5 : user.failed_login_attempts ≥ 5
      · have hnl : ¬(now - user.last_failed_login < lockoutTimeMs) :=
          fun h => hlock ⟨h5, h⟩
        simp [hpw, h5, hnl]
      · simp [hpw, h5]
    · have hpw' : cmp password user.password = false := by
        simpa using hpw
      rw [login_eval_wrong_password cmp db now email password user hcred hfind
        hvalid hactive hlock hpw']
      have h2 := userById_after_recordFailedLogin _ user.id now _ hdb1
      rw [h2]
      by_cases h5 : user.failed_login_attempts ≥ 5
      · have hnl : ¬(now - user.last_failed_login < lockoutTimeMs) :=
          fun h => hlock ⟨h5, h⟩
        simp [hpw', h5, hnl]
      · simp [hpw', h5]

theorem C5_failed_counter_transition_witness :
    (userById (login literalCmp [c5User] lockoutTimeMs
        (some "c5@x.com") (some "wrong")).db c5User.id).map
        User.failed_login_attempts =
      some (if c5User.failed_login_attempts ≥ 5 ∧
              lockoutTimeMs - c5User.last_failed_login < lockoutTimeMs then
              c5User.failed_login_attempts
            else if literalCmp "wrong" c5User.password then 0
            else if c5User.failed_login_attempts ≥ 5 then 1
            else c5User.failed_login_attempts + 1) :=
  C5_failed_counter_transition literalCmp [c5User] lockoutTimeMs "c5@x.com"
    "wrong" c5User (by decide) rfl rfl (by decide) (by decide) rfl

/-! ## Claim C3: what the issued tokens embed -/

def c3UserA : User :=
  ⟨1, "c3@x.com", "C3", "pw3", "user", PermStored.nullP, true, 0, 0, 0, none⟩

def c3UserB : User :=
  ⟨1, "c3@x.com", "C3", "pw3", "user", PermStored.arrP ["courses:admin"],
    true, 0, 0, 0, none⟩

/-- C3 counterexample: two accounts identical except for their permission
overrides receive the *same* access token from a successful login — the
token's claims carry only the account id, role, `iat` and `exp` — while
their resolved permission sets differ; hence the access-token claims do
not embed the resolved permission set. -/
theorem C3_token_claims_counterexample :
    (login literalCmp [c3UserA] 1000 (some "c3@x.com") (some "pw3")).result.toOption.map
        LoginSuccess.token = some ⟨1, "user", 1, 86401, true⟩ ∧
    (login literalCmp [c3UserB] 1000 (some "c3@x.com") (some "pw3")).result.toOption.map
        LoginSuccess.token = some ⟨1, "user", 1, 86401, true⟩ ∧
    getUserPermissions c3UserA.role c3UserA.permissions ≠
      getUserPermissions c3UserB.role c3UserB.permissions ∧
    (login literalCmp [c3UserA] 1000 (some "c3@x.com") (some "pw3")).result.toOption.map
        (fun s => s.user.permissions) ≠
      (login literalCmp [c3UserB] 1000 (some "c3@x.com") (some "pw3")).result.toOption.map
        (fun s => s.user.permissions) :=
  ⟨rfl, rfl, by decide, by decide⟩

/-- C3 amended: a successful login of an active, unlocked account issues an
access token whose claims embed the account id and role (with `iat` and
`exp`) — not the permission set; the resolved permissions are returned
beside the token in the response's `user` object as
`parsePermissions(user.permissions)`; and the refresh token placed in the
response equals the stored refresh-token pointer after the login. -/
theorem C3_token_issuance
    (cmp : String → String → Bool) (db : List User) (now : Int)
    (email password : String) (user : User)
    (hcred : ¬(email = "" ∨ password = ""))
    (hfind : findByEmail db email = some user)
    (huid : userById db user.id = some user)
    (hid : user.id ≠ 0) (hrole : user.role ≠ "")
    (hactive : user.is_active = true)
    (hnolock : ¬(user.failed_login_attempts ≥ 5 ∧
      now - user.last_failed_login < lockoutTimeMs))
    (hright : cmp password user.password = true) :
    (login cmp db now (some email) (some password)).result =
      .ok ⟨⟨user.id, user.role, now / 1000, now / 1000 + accessTokenLifetimeSec, true⟩,
           ⟨user.id, "refresh", now / 1000, now / 1000 + refreshTokenLifetimeSec, true⟩,
           ⟨user.id, user.email, user.full_name, user.role,
             parsePermissions user.permissions⟩⟩ ∧
    (userById (login cmp db now (some email) (some password)).db user.id).map
        User.refresh_token =
      some (some ⟨user.id, "refresh", now / 1000,
        now / 1000 + refreshTokenLifetimeSec, true⟩) := by
  rw [login_eval_success cmp db now email password user hcred hfind hid hrole
    hactive hnolock hright]
  refine ⟨rfl, ?_⟩
  have hdb1 : userById (if user.failed_login_attempts ≥ 5 then
      setFailedAttempts db user.id 0 else db) user.id =
      some (if user.failed_login_attempts ≥ 5 then
        { user with failed_login_attempts := 0 } else user) := by
    by_cases h5 : user.failed_login_attempts ≥ 5
    · simpa [h5] using userById_after_setFailedAttempts db user.id 0 user huid
    · simpa [h5] using huid
  have h2 := userById_after_recordSuccessfulLogin _ user.id now _ hdb1
  have h3 := userById_after_setRefreshToken _ user.id
    (some ⟨user.id, "refresh", now / 1000,
      now / 1000 + refreshTokenLifetimeSec, true⟩) _ h2
  rw [h3]
  rfl

theorem C3_token_issuance_witness :
    (login literalCmp [c3UserA] 1000 (some "c3@x.com") (some "pw3")).result =
      .ok ⟨⟨c3UserA.id, c3UserA.role, 1, 1 + accessTokenLifetimeSec, true⟩,
           ⟨c3UserA.id, "refresh", 1, 1 + refreshTokenLifetimeSec, true⟩,
           ⟨c3UserA.id, c3UserA.email, c3UserA.full_name, c3UserA.role,
             parsePermissions c3UserA.permissions⟩⟩ ∧
    (userById (login literalCmp [c3UserA] 1000
        (some "c3@x.com") (some "pw3")).db c3UserA.id).map User.refresh_token =
      some (some ⟨c3UserA.id, "refresh", 1, 1 + refreshTokenLifetimeSec, true⟩) :=
  C3_token_issuance literalCmp [c3UserA] 1000 "c3@x.com" "pw3" c3UserA
    (by decide) rfl rfl (by decide) (by decide) rfl (by decide) rfl

/-! ## Claim C1: refresh-token rotation -/

theorem verifyRefreshToken_some_inv (tok : RefreshClaims) (now : Int)
    (d : RefreshClaims) (h : verifyRefreshToken tok now = some d) :
    d = tok ∧ tok.userId ≠ 0 := by
  unfold verifyRefreshToken at h
  split_ifs at h with h1 h2 h3 h4
  all_goals simp_all

/-- Inversion of a successful refresh: the run found the row whose stored
pointer equals the presented token, and replaced that pointer with the
newly issued refresh token. -/
theorem refreshRoute_ok_inv (db : List User) (now : Int) (tok : RefreshClaims)
    (s : RefreshSuccess)
    (h : (refreshRoute db now (some tok)).result = .ok s) :
    ∃ user, db.find? (fun u => u.id = tok.userId ∧ u.refresh_token = some tok) =
        some user ∧
      user.id = tok.userId ∧
      s.refreshToken = ⟨user.id, "refresh", now / 1000,
        now / 1000 + refreshTokenLifetimeSec, true⟩ ∧
      (refreshRoute db now (some tok)).db =
        setRefreshToken db user.id (some s.refreshToken) := by
  unfold refreshRoute at h ⊢
  dsimp only at h ⊢
  cases hv : verifyRefreshToken tok now with
  | none => rw [hv] at h; simp at h
  | some d =>
      obtain ⟨hdt, hu0⟩ := verifyRefreshToken_some_inv tok now d hv
      subst hdt
      rw [hv] at h
      dsimp only at h ⊢
      rw [if_neg hu0] at h
      rw [if_neg hu0]
      cases hf : db.find? (fun u => u.id = d.userId ∧ u.refresh_token = some d) with
      | none =>
          rw [hf] at h
          simp at h
      | some user =>
          rw [hf] at h
          dsimp only at h
          have huid : user.id = d.userId := by
            have := List.find?_some hf
            exact (of_decide_eq_true this).1
          by_cases hval : user.id = 0 ∨ user.role = ""
          · rw [if_pos hval] at h; simp at h
          · rw [if_neg hval] at h
            have hidne : user.id ≠ 0 := fun hh => hval (Or.inl hh)
            have hrolene : user.role ≠ "" := fun hh => hval (Or.inr hh)
            rw [generateToken_eq user.id user.role now hidne hrolene,
              generateRefreshToken_eq user.id now hidne] at h
            dsimp only at h
            dsimp only
            rw [if_neg hval, generateToken_eq user.id user.role now hidne hrolene,
              generateRefreshToken_eq user.id now hidne]
            dsimp only
            cases h
            exact ⟨user, rfl, huid, rfl, rfl⟩

/-- C1 amended: once a refresh with token `T` has succeeded and rotated the
stored pointer to a new token different from `T`, any subsequent refresh
presenting `T` fails — it returns the same generic 401
`INVALID_REFRESH_TOKEN` response that an expired or malformed token
receives, and never yields a second valid token pair. -/
theorem C1_rotation_single_use
    (db : List User) (now1 now2 : Int) (tok : RefreshClaims) (s : RefreshSuccess)
    (h1 : (refreshRoute db now1 (some tok)).result = .ok s)
    (hne : s.refreshToken ≠ tok) :
    (refreshRoute (refreshRoute db now1 (some tok)).db now2 (some tok)).result =
      .error ⟨401, "Invalid refresh token", "INVALID_REFRESH_TOKEN", none⟩ := by
  obtain ⟨user, hf, huid, hrt, hdb⟩ := refreshRoute_ok_inv db now1 tok s h1
  rw [hdb]
  unfold refreshRoute
  dsimp only
  cases hv : verifyRefreshToken tok now2 with
  | none => rfl
  | some d =>
      obtain ⟨hdt, hu0⟩ := verifyRefreshToken_some_inv tok now2 d hv
      subst hdt
      dsimp only
      rw [if_neg hu0, ← huid,
        refreshLookup_after_set db user.id (some s.refreshToken) d
          (fun hh => hne (Option.some.inj hh))]

def c1Tok : RefreshClaims := ⟨1, "refresh", 0, 604800, true⟩

def c1User : User :=
  ⟨1, "c1@x.com", "C1", "pw1", "user", PermStored.nullP, true, 0, 0, 0,
    some c1Tok⟩

def c1TokExpired : RefreshClaims := ⟨1, "refresh", 0, 3, true⟩

/-- C1 counterexample: the first refresh with `c1Tok` succeeds; the second,
presenting the now-superseded `c1Tok`, fails with the exact same 401
`INVALID_REFRESH_TOKEN` value that an ordinarily expired token produces —
there is no distinct `TokenReused` error distinguishable from expiry. -/
theorem C1_reuse_error_counterexample :
    (refreshRoute [c1User] 5000 (some c1Tok)).result =
      .ok ⟨⟨1, "user", 5, 86405, true⟩, ⟨1, "refresh", 5, 604805, true⟩⟩ ∧
    (refreshRoute (refreshRoute [c1User] 5000 (some c1Tok)).db 6000
        (some c1Tok)).result =
      .error ⟨401, "Invalid refresh token", "INVALID_REFRESH_TOKEN", none⟩ ∧
    (refreshRoute [c1User] 5000 (some c1TokExpired)).result =
      .error ⟨401, "Invalid refresh token", "INVALID_REFRESH_TOKEN", none⟩ :=
  ⟨rfl, rfl, rfl⟩

theorem C1_rotation_single_use_witness :
    (refreshRoute (refreshRoute [c1User] 5000 (some c1Tok)).db 6000
        (some c1Tok)).result =
      .error ⟨401, "Invalid refresh token", "INVALID_REFRESH_TOKEN", none⟩ :=
  C1_rotation_single_use [c1User] 5000 6000 c1Tok
    ⟨⟨1, "user", 5, 86405, true⟩, ⟨1, "refresh", 5, 604805, true⟩⟩ rfl
    (by decide)

/-! ## Claim C6: logout invalidates refresh but not outstanding access tokens -/

theorem find?_map_pred_invariant (db : List User) (g : User → User)
    (p : User → Bool) (hp : ∀ u, p (g u) = p u) :
    (db.map g).find? p = (db.find? p).map g := by
  induction db with
  | nil => rfl
  | cons v l ih =>
      by_cases hv : p v = true
      · rw [List.map_cons, List.find?_cons_of_pos _ (by rw [hp]; exact hv),
          List.find?_cons_of_pos _ hv]
        rfl
      · rw [List.map_cons, List.find?_cons_of_neg _ (by rw [hp]; simpa using hv),
          List.find?_cons_of_neg _ (by simpa using hv)]
        exact ih

/-- C6: after `logout` clears the stored refresh-token pointer of account
`uid`, (1) every refresh presenting a refresh token of that account
returns the 401 `INVALID_REFRESH_TOKEN` error — never a token pair — and
(2) a still-unexpired, validly signed access token continues to verify:
`authenticateToken` still succeeds with the account's data, because it
never consults the stored refresh-token pointer. -/
theorem C6_logout_invalidates_refresh_not_access
    (db : List User) (uid : Nat) (rtok : RefreshClaims) (atok : AccessClaims)
    (nowR nowA : Int) (user : User)
    (hrid : rtok.userId = uid)
    (hsig : atok.sigOk = true)
    (hexp1 : nowA / 1000 < atok.exp)
    (hexp2 : nowA < atok.exp * 1000)
    (haid : atok.userId ≠ 0)
    (hlook : db.find? (fun u => u.id = atok.userId ∧ u.is_active) = some user) :
    (refreshRoute (logoutRoute db uid) nowR (some rtok)).result =
      .error ⟨401, "Invalid refresh token", "INVALID_REFRESH_TOKEN", none⟩ ∧
    authenticateToken (logoutRoute db uid) nowA (some atok) =
      .ok ⟨user.id, user.email, user.full_name, user.role,
        parsePermissions user.permissions, user.last_login⟩ := by
  constructor
  · unfold refreshRoute
    dsimp only
    cases hv : verifyRefreshToken rtok nowR with
    | none => rfl
    | some d =>
        obtain ⟨hdt, hu0⟩ := verifyRefreshToken_some_inv rtok nowR d hv
        subst hdt
        dsimp only
        rw [if_neg hu0, hrid]
        rw [show logoutRoute db uid = setRefreshToken db uid none from rfl,
          refreshLookup_after_set db uid none d (by simp)]
  · unfold authenticateToken
    dsimp only
    rw [if_neg (by simp [hsig]), if_neg (by omega), if_neg (by omega),
      if_neg haid]
    have hg : (logoutRoute db uid).find?
        (fun u => u.id = atok.userId ∧ u.is_active) =
        some (if user.id = uid then { user with refresh_token := none } else user) := by
      rw [show logoutRoute db uid = setRefreshToken db uid none from rfl,
        setRefreshToken,
        find?_map_pred_invariant db
          (fun u => if u.id = uid then { u with refresh_token := none } else u)
          _ (fun u => by by_cases h : u.id = uid <;> simp [h]),
        hlook]
      rfl
    have h1 := List.find?_some hlook
    simp only [decide_eq_true_eq] at h1
    have hactive : user.is_active = true := h1.2
    rw [hg]
    by_cases h : user.id = uid <;> simp [h, hactive]

def c6Tok : RefreshClaims := ⟨6, "refresh", 0, 604800, true⟩

def c6Atok : AccessClaims := ⟨6, "user", 0, 86400, true⟩

def c6User : User :=
  ⟨6, "c6@x.com", "C6", "pw6", "user", PermStored.nullP, true, 0, 0, 0,
    some c6Tok⟩

theorem C6_logout_invalidates_refresh_not_access_witness :
    (refreshRoute (logoutRoute [c6User] 6) 5000 (some c6Tok)).result =
      .error ⟨401, "Invalid refresh token", "INVALID_REFRESH_TOKEN", none⟩ ∧
    authenticateToken (logoutRoute [c6User] 6) 5000 (some c6Atok) =
      .ok ⟨c6User.id, c6User.email, c6User.full_name, c6User.role,
        parsePermissions c6User.permissions, c6User.last_login⟩ :=
  C6_logout_invalidates_refresh_not_access [c6User] 6 c6Tok c6Atok 5000 5000
    c6User rfl rfl (by decide) (by decide) (by decide) rfl

/-! ## Claim C4: rate-limit window keying -/

theorem find?_key_replace (s : List (String × RateRecord)) (k : String)
    (r : RateRecord) (h : (s.find? (fun e => e.1 = k)).isSome) :
    (s.map (fun e => if e.1 = k then (k, r) else e)).find?
      (fun e => e.1 = k) = some (k, r) := by
  induction s with
  | nil => simp at h
  | cons e l ih =>
      by_cases he : e.1 = k
      · rw [List.map_cons, if_pos he, List.find?_cons_of_pos _ (by simp)]
      · rw [List.map_cons, if_neg he, List.find?_cons_of_neg _ (by simpa using he)]
        apply ih
        rw [List.find?_cons_of_neg _ (by simpa using he)] at h
        exact h

theorem find?_key_append (s : List (String × RateRecord)) (k : String)
    (r : RateRecord) (h : s.find? (fun e => e.1 = k) = none) :
    (s ++ [(k, r)]).find? (fun e => e.1 = k) = some (k, r) := by
  induction s with
  | nil => rw [List.nil_append, List.find?_cons_of_pos _ (by simp)]
  | cons e l ih =>
      by_cases he : e.1 = k
      · rw [List.find?_cons_of_pos _ (by simpa using he)] at h
        exact absurd h (by simp)
      · rw [List.find?_cons_of_neg _ (by simpa using he)] at h
        rw [List.cons_append, List.find?_cons_of_neg _ (by simpa using he)]
        exact ih h

theorem storeGet_storeSet_self (s : List (String × RateRecord)) (k : String)
    (r : RateRecord) : storeGet (storeSet s k r) k = some r := by
  unfold storeGet storeSet
  by_cases h : (List.find? (fun e => e.1 = k) s).isSome
  · rw [if_pos h, find?_key_replace s k r h]
    rfl
  · rw [if_neg h,
      find?_key_append s k r (by simpa using Option.not_isSome_iff_eq_none.mp h)]
    rfl

/-- Within an open window, one call to the middleware — with any
`maxRequests`/`windowMs` configuration — stores the incremented count
under the identifier key. -/
theorem rateLimit_store_eq (m : Nat) (w : Int)
    (s : List (String × RateRecord)) (ip : String) (now : Int) (r : RateRecord)
    (hget : storeGet s ip = some r) (hwin : ¬now > r.resetTime) :
    (rateLimit m w s ip now).2 = storeSet s ip ⟨r.count + 1, r.resetTime⟩ := by
  unfold rateLimit
  rw [hget]
  dsimp only
  rw [if_neg hwin]
  by_cases h : r.count + 1 > m <;> simp [h]

def c4Ip : String := "10.0.0.9"

/-- Ten consecutive login-limiter invocations (`rateLimit(5, ...)`). -/
def c4LoginCalls : Nat → List (String × RateRecord) → List (String × RateRecord)
  | 0, s => s
  | n + 1, s => c4LoginCalls n (rateLimit 5 900000 s c4Ip 0).2

/-- C4 counterexample: after ten requests to the login limiter
(`rateLimit(5)`), a first request to the refresh limiter (`rateLimit(10)`)
from the same identifier is already rejected — the login traffic consumed
the refresh budget, because both middleware instances share the single
`rateLimitStore` keyed by `req.ip` alone.  On a fresh store the same
refresh request is permitted. -/
theorem C4_shared_budget_counterexample :
    (rateLimit 10 900000 (c4LoginCalls 10 []) c4Ip 0).1 = .limited 900 ∧
    (rateLimit 10 900000 [] c4Ip 0).1 = .next ∧
    storeGet (c4LoginCalls 10 []) c4Ip = some ⟨10, 900000⟩ :=
  ⟨rfl, rfl, rfl⟩

/-- C4 amended: the rate-limit store is keyed by the identifier (`req.ip`)
alone — there is no endpoint component — so within an open window two
middleware invocations with different endpoint configurations
(`maxRequests`/`windowMs`) increment the same counter: after a login-config
call the stored count is `count + 1`, and a refresh-config call on the
resulting store brings the same key to `count + 2`. -/
theorem C4_rate_limit_keyed_by_identifier_only
    (m1 m2 : Nat) (w1 w2 : Int) (s : List (String × RateRecord)) (ip : String)
    (now : Int) (r : RateRecord)
    (hget : storeGet s ip = some r) (hwin : ¬now > r.resetTime) :
    storeGet (rateLimit m1 w1 s ip now).2 ip = some ⟨r.count + 1, r.resetTime⟩ ∧
    storeGet (rateLimit m2 w2 (rateLimit m1 w1 s ip now).2 ip now).2 ip =
      some ⟨r.count + 2, r.resetTime⟩ := by
  have h1 := rateLimit_store_eq m1 w1 s ip now r hget hwin
  have hg1 : storeGet (rateLimit m1 w1 s ip now).2 ip =
      some ⟨r.count + 1, r.resetTime⟩ := by
    rw [h1]
    exact storeGet_storeSet_self s ip ⟨r.count + 1, r.resetTime⟩
  refine ⟨hg1, ?_⟩
  have h2 := rateLimit_store_eq m2 w2 (rateLimit m1 w1 s ip now).2 ip now
    ⟨r.count + 1, r.resetTime⟩ hg1 hwin
  rw [h2]
  exact storeGet_storeSet_self _ ip ⟨r.count + 2, r.resetTime⟩

theorem C4_rate_limit_keyed_by_identifier_only_witness :
    storeGet (rateLimit 5 900000 [(c4Ip, ⟨1, 900000⟩)] c4Ip 0).2 c4Ip =
      some ⟨2, 900000⟩ ∧
    storeGet (rateLimit 10 900000
        (rateLimit 5 900000 [(c4Ip, ⟨1, 900000⟩)] c4Ip 0).2 c4Ip 0).2 c4Ip =
      some ⟨3, 900000⟩ :=
  C4_rate_limit_keyed_by_identifier_only 5 10 900000 900000
    [(c4Ip, ⟨1, 900000⟩)] c4Ip 0 ⟨1, 900000⟩ rfl (by decide)
